import Mathlib

/-!
Verification of the fractional-pixel spectral-extraction notebook
(`concept_APIs/fractional_pixel_extraction/fractional_pixel_extraction.ipynb`).

The notebook is a linear script: download a NIRSpec IFU cube, let the user
select a circular pixel region, convert it to a sky region using the celestial
WCS pixel scale, then loop over the spectral slices computing an aperture
photometry sum with an aperture radius that scales linearly with wavelength,
and assemble the flux and propagated error lists into a `Spectrum1D`.

Numeric slice data and wavelengths are embedded as rationals; the celestial
WCS part, which involves a square root, is embedded over the reals.  The
library calls the notebook delegates to (`aperture_photometry`,
`pixel_to_world`, `world_to_pixel`) are abstract function parameters.
-/

namespace FracPixExtract

/-- A 2-D spatial slice of the IFU cube (one plane of the 3-D `SCI` or `ERR`
array), as a list of rows of rationals. -/
abbrev Slice := List (List ℚ)

/-- The celestial part of the FITS WCS read from `hdulist[1].header`:
the two `cdelt` scales (degrees per pixel) and the pixel-to-world /
world-to-pixel transforms, which the notebook delegates to astropy.
`Sky` is the type of sky positions (`SkyCoord`). -/
structure CelestialWCS (Sky : Type) where
  cdelt1 : ℝ
  cdelt2 : ℝ
  pixel_to_world : ℝ × ℝ → Sky
  world_to_pixel : Sky → ℝ × ℝ

/-- `pixel_scale = np.sqrt(np.abs(np.prod(w.celestial.wcs.cdelt)))`:
the product of the two `cdelt` entries, absolute value, square root. -/
noncomputable def pixel_scale {Sky : Type} (w : CelestialWCS Sky) : ℝ :=
  Real.sqrt |w.cdelt1 * w.cdelt2|

/-- The circular pixel region returned by
`data.get_selection_definition(format=astropy-regions)`:
a center in pixel coordinates and a radius in pixels. -/
structure CirclePixelRegion where
  centerX : ℝ
  centerY : ℝ
  radius : ℝ

/-- A circular sky region: a sky-coordinate center and a radius in arcsec. -/
structure CircleSkyRegion (Sky : Type) where
  center : Sky
  radiusArcsec : ℝ

/-- The conversion cell of the notebook:
`center = w.celestial.pixel_to_world(pix_region.center.x, pix_region.center.y)`,
`radius = pix_region.radius * pixel_scale * 3600 * u.arcsec`,
`region = CircleSkyRegion(center, radius)`. -/
noncomputable def toSkyRegion {Sky : Type} (w : CelestialWCS Sky)
    (p : CirclePixelRegion) : CircleSkyRegion Sky :=
  { center := w.pixel_to_world (p.centerX, p.centerY)
    radiusArcsec := p.radius * pixel_scale w * 3600 }

/-- Model of `regions.CircleSkyRegion.to_pixel` on the same celestial WCS
(library code, idealized as the exact inverse conversion on a linear WCS):
the center goes through `world_to_pixel` and the arcsec radius is divided by
the pixel scale expressed in arcsec per pixel. -/
noncomputable def CircleSkyRegion.to_pixel {Sky : Type} (s : CircleSkyRegion Sky)
    (w : CelestialWCS Sky) : CirclePixelRegion :=
  { centerX := (w.world_to_pixel s.center).1
    centerY := (w.world_to_pixel s.center).2
    radius := s.radiusArcsec / (pixel_scale w * 3600) }

/-- Spec-side formulation of the sky radius: the pixel radius multiplied by
the geometric mean of the absolute celestial WCS scales in degrees, times
3600 arcsec per degree. -/
noncomputable def skyRadiusSpec {Sky : Type} (w : CelestialWCS Sky) (r : ℝ) : ℝ :=
  r * Real.sqrt (|w.cdelt1| * |w.cdelt2|) * 3600

/-- `aperture_radius = aperture.r * wavelength / reference_wavelength`,
where `reference_wavelength = spec1d.spectral_axis[0]` is `wl0`. -/
def aperture_radius (r wl0 wl : ℚ) : ℚ :=
  r * wl / wl0

/-- The extraction loop of the notebook.  `phot` models
`aperture_photometry(sci_slice, aperture_cone, wcs=w.celestial, method=exact,
error=err_slice)` and returns the pair
`(phot_table[aperture_sum][0], phot_table[aperture_sum_err][0])`; the fixed
aperture center and celestial WCS of the run are folded into `phot`, so its
arguments are the slice data and the cone radius.  `r` is the sky aperture
radius `aperture.r`.  The loop zips `spec1d.spectral_axis`, `sci` and `err`
and appends one flux and one error value per iteration.  When the spectral
axis is empty, `spec1d.spectral_axis[0]` raises before the loop runs, so the
result is `none`. -/
def extract (phot : Slice → Slice → ℚ → ℚ × ℚ) (r : ℚ)
    (spectralAxis : List ℚ) (sci err : List Slice) : Option (List ℚ × List ℚ) :=
  match spectralAxis with
  | [] => none
  | wl0 :: rest =>
      let rows := ((wl0 :: rest).zip (sci.zip err)).map
        (fun t => phot t.2.1 t.2.2 (aperture_radius r wl0 t.1))
      some (rows.map Prod.fst, rows.map Prod.snd)

/-- The kind tag of an astropy `NDUncertainty`. -/
inductive UncertaintyKind where
  | stdDev
  | variance
  | inverseVariance
deriving DecidableEq

/-- An astropy uncertainty object: a kind tag and the carried values. -/
structure NDUncertainty where
  kind : UncertaintyKind
  values : List ℚ
deriving DecidableEq

/-- `astropy.nddata.StdDevUncertainty`: a standard-deviation uncertainty. -/
def StdDevUncertainty (vs : List ℚ) : NDUncertainty :=
  { kind := UncertaintyKind.stdDev, values := vs }

/-- A `specutils.Spectrum1D`: spectral axis, flux values with their unit,
and an optional uncertainty. -/
structure Spectrum1D where
  spectral_axis : List ℚ
  flux : List ℚ
  fluxUnit : String
  uncertainty : Option NDUncertainty
deriving DecidableEq

/-- What the extraction cells read from the downloaded file: the `SCI` and
`ERR` planes from `fits.open`, and the spectral axis and flux unit from
`Spectrum1D.read` of the same file. -/
structure IFUFile where
  sci : List Slice
  err : List Slice
  spectral_axis : List ℚ
  fluxUnit : String
deriving DecidableEq

/-- The extraction cells end-to-end: run the loop, then
`flux = np.array(flux_sum) * spec1d.flux.unit`,
`uncertainty = StdDevUncertainty(np.array(err_sum))`, and
`extracted_spec = Spectrum1D(flux=flux, spectral_axis=spec1d.spectral_axis,
uncertainty=uncertainty)`. -/
def extracted_spec (phot : Slice → Slice → ℚ → ℚ × ℚ) (r : ℚ)
    (f : IFUFile) : Option Spectrum1D :=
  (extract phot r f.spectral_axis f.sci f.err).map fun p =>
    { spectral_axis := f.spectral_axis
      flux := p.1
      fluxUnit := f.fluxUnit
      uncertainty := some (StdDevUncertainty p.2) }

/-- The run as a whole, with its two input-error modes: `none` in the first
argument models an exception raised by `fits.open` / `Spectrum1D.read` (the
input file is missing or malformed), `none` in the second models
`get_selection_definition` raising because the user selected no region.  The
selection is `(center x, center y, radius)` and `pixelScale` is the computed
celestial pixel scale, so the sky aperture radius is
`radius * pixelScale * 3600` as in the conversion cell. -/
def pipeline (phot : Slice → Slice → ℚ → ℚ × ℚ) (pixelScale : ℚ)
    (file : Option IFUFile) (selection : Option (ℚ × ℚ × ℚ)) : Option Spectrum1D :=
  match file, selection with
  | some f, some sel => extracted_spec phot (sel.2.2 * pixelScale * 3600) f
  | _, _ => none

/-- A probe photometry function used to instantiate theorems on concrete
inputs: returns the cone radius as the sum and the first entry of the error
slice as the error. -/
def photProbe : Slice → Slice → ℚ → ℚ × ℚ :=
  fun _ e rad => (rad, e.headI.headI)

/-- A concrete one-slice cube file used to instantiate theorems. -/
def fileSample : IFUFile :=
  { sci := [[[5]]], err := [[[4]]], spectral_axis := [3], fluxUnit := "Jy" }

/-- The spectrum that the extraction cells produce on `fileSample` with
`photProbe` and sky radius 2. -/
def specSample : Spectrum1D :=
  { spectral_axis := [3], flux := [aperture_radius 2 3 3], fluxUnit := "Jy",
    uncertainty := some (StdDevUncertainty [4]) }

/-- C1: for every spectral slice index `i`, the cone radius handed to the
photometry call for that slice equals the selected sky-aperture radius
multiplied by `spectral_axis[i] / spectral_axis[0]`. -/
theorem extract_radius_scales_with_wavelength
    (phot : Slice → Slice → ℚ → ℚ × ℚ) (r wl0 : ℚ) (rest : List ℚ)
    (sci err : List Slice) (i : ℕ)
    (hi : i < (wl0 :: rest).length) (hs : i < sci.length) (he : i < err.length) :
    ∃ fs es, extract phot r (wl0 :: rest) sci err = some (fs, es) ∧
      fs[i]? = some (phot sci[i] err[i]
        (r * ((wl0 :: rest)[i] / (wl0 :: rest)[0]))).1 := by
  refine ⟨_, _, rfl, ?_⟩
  have hz : i < ((wl0 :: rest).zip (sci.zip err)).length := by
    simp only [List.length_zip]
    exact lt_min hi (lt_min hs he)
  rw [List.getElem?_map, List.getElem?_map, List.getElem?_eq_getElem hz]
  simp only [List.getElem_zip, Option.map_some]
  simp [aperture_radius, mul_div_assoc]

/-- Witness for C1 at a concrete input. -/
theorem extract_radius_scales_with_wavelength_witness :
    (0 < ((3 : ℚ) :: [6]).length ∧ 0 < [[[(5 : ℚ)]]].length ∧ 0 < [[[(4 : ℚ)]]].length) ∧
    ∃ fs es, extract photProbe 2 ((3 : ℚ) :: [6]) [[[(5 : ℚ)]]] [[[(4 : ℚ)]]] = some (fs, es) ∧
      fs[0]? = some (photProbe [[(5 : ℚ)]] [[(4 : ℚ)]]
        (2 * (((3 : ℚ) :: [6])[0] / ((3 : ℚ) :: [6])[0]))).1 :=
  ⟨⟨by decide, by decide, by decide⟩,
    extract_radius_scales_with_wavelength photProbe 2 3 [6] [[[(5 : ℚ)]]] [[[(4 : ℚ)]]] 0
      (by decide) (by decide) (by decide)⟩

/-- C2: the flux value appended for slice `i` is the first component of the
photometry call on that slice's science data with the wavelength-scaled
radius, the appended error is the second component for the same call on the
same slice's error data, and the loop appends one flux and one error per
iteration, so the two lists have equal length and are in slice order. -/
theorem extract_flux_err_from_phot
    (phot : Slice → Slice → ℚ → ℚ × ℚ) (r wl0 : ℚ) (rest : List ℚ)
    (sci err : List Slice) (i : ℕ)
    (hi : i < (wl0 :: rest).length) (hs : i < sci.length) (he : i < err.length) :
    ∃ fs es, extract phot r (wl0 :: rest) sci err = some (fs, es) ∧
      fs.length = es.length ∧
      fs[i]? = some (phot sci[i] err[i] (aperture_radius r wl0 ((wl0 :: rest)[i]))).1 ∧
      es[i]? = some (phot sci[i] err[i] (aperture_radius r wl0 ((wl0 :: rest)[i]))).2 := by
  have hz : i < ((wl0 :: rest).zip (sci.zip err)).length := by
    simp only [List.length_zip]
    exact lt_min hi (lt_min hs he)
  refine ⟨_, _, rfl, by simp, ?_, ?_⟩ <;>
  · rw [List.getElem?_map, List.getElem?_map, List.getElem?_eq_getElem hz]
    simp [List.getElem_zip]

/-- Witness for C2 at a concrete input. -/
theorem extract_flux_err_from_phot_witness :
    (0 < ((3 : ℚ) :: [6]).length ∧ 0 < [[[(5 : ℚ)]]].length ∧ 0 < [[[(4 : ℚ)]]].length) ∧
    ∃ fs es, extract photProbe 2 ((3 : ℚ) :: [6]) [[[(5 : ℚ)]]] [[[(4 : ℚ)]]] = some (fs, es) ∧
      fs.length = es.length ∧
      fs[0]? = some (photProbe [[(5 : ℚ)]] [[(4 : ℚ)]]
        (aperture_radius 2 3 (((3 : ℚ) :: [6])[0]))).1 ∧
      es[0]? = some (photProbe [[(5 : ℚ)]] [[(4 : ℚ)]]
        (aperture_radius 2 3 (((3 : ℚ) :: [6])[0]))).2 :=
  ⟨⟨by decide, by decide, by decide⟩,
    extract_flux_err_from_phot photProbe 2 3 [6] [[[(5 : ℚ)]]] [[[(4 : ℚ)]]] 0
      (by decide) (by decide) (by decide)⟩

/-- C3: when the cube is well formed (as many SCI planes and ERR planes as
spectral-axis entries, and a nonempty spectral axis), the arrays assembled
into the output spectrum all have the spectral-axis length: flux,
uncertainty values and wavelengths match in length. -/
theorem extracted_spec_lengths_match
    (phot : Slice → Slice → ℚ → ℚ × ℚ) (r : ℚ) (f : IFUFile)
    (hne : f.spectral_axis ≠ [])
    (hs : f.sci.length = f.spectral_axis.length)
    (he : f.err.length = f.spectral_axis.length) :
    ∃ s u, extracted_spec phot r f = some s ∧ s.uncertainty = some u ∧
      s.flux.length = s.spectral_axis.length ∧
      u.values.length = s.spectral_axis.length := by
  obtain ⟨wl0, rest, hax⟩ := List.exists_cons_of_ne_nil hne
  rw [hax] at hs he
  simp only [extracted_spec, hax, extract, Option.map_some]
  refine ⟨_, _, rfl, rfl, ?_, ?_⟩ <;>
    simp [StdDevUncertainty, List.length_zip, hs, he]

/-- Witness for C3 at a concrete input. -/
theorem extracted_spec_lengths_match_witness :
    (fileSample.spectral_axis ≠ [] ∧
      fileSample.sci.length = fileSample.spectral_axis.length ∧
      fileSample.err.length = fileSample.spectral_axis.length) ∧
    ∃ s u, extracted_spec photProbe 2 fileSample = some s ∧ s.uncertainty = some u ∧
      s.flux.length = s.spectral_axis.length ∧
      u.values.length = s.spectral_axis.length :=
  ⟨⟨by decide, by decide, by decide⟩,
    extracted_spec_lengths_match photProbe 2 fileSample
      (by decide) (by decide) (by decide)⟩

/-- C6: the photometry loop leaves the wavelength axis unchanged: whenever
the extraction produces a spectrum, its spectral axis is exactly the input
cube's spectral axis. -/
theorem extracted_spec_preserves_spectral_axis
    (phot : Slice → Slice → ℚ → ℚ × ℚ) (r : ℚ) (f : IFUFile) (s : Spectrum1D)
    (h : extracted_spec phot r f = some s) :
    s.spectral_axis = f.spectral_axis := by
  rcases Option.map_eq_some'.mp h with ⟨p, hp, hps⟩
  rw [← hps]

/-- Witness for C6 at a concrete input. -/
theorem extracted_spec_preserves_spectral_axis_witness :
    extracted_spec photProbe 2 fileSample = some specSample ∧
    specSample.spectral_axis = fileSample.spectral_axis :=
  ⟨rfl, extracted_spec_preserves_spectral_axis photProbe 2 fileSample specSample rfl⟩

/-- C7: when the input file cannot be read or the user selected no region,
the run raises before the loop and produces no partial flux or uncertainty
output at all. -/
theorem pipeline_none_on_input_error
    (phot : Slice → Slice → ℚ → ℚ × ℚ) (pixelScale : ℚ)
    (file : Option IFUFile) (selection : Option (ℚ × ℚ × ℚ))
    (h : file = none ∨ selection = none) :
    pipeline phot pixelScale file selection = none := by
  rcases h with h | h
  · subst h; cases selection <;> rfl
  · subst h; cases file <;> rfl

/-- Witness for C7 at a concrete input. -/
theorem pipeline_none_on_input_error_witness :
    ((none : Option IFUFile) = none ∨ (some ((0 : ℚ), (0 : ℚ), (1 : ℚ))) = none) ∧
    pipeline photProbe 1 none (some ((0 : ℚ), (0 : ℚ), (1 : ℚ))) = none :=
  ⟨Or.inl rfl,
    pipeline_none_on_input_error photProbe 1 none (some (0, 0, 1)) (Or.inl rfl)⟩

/-- C8: the loop zips the spectral axis with the SCI and ERR plane lists, so
when the three lengths differ it silently processes only the first
`min` of the three lengths, and both output lists have exactly that
length. -/
theorem extract_length_is_min_zip
    (phot : Slice → Slice → ℚ → ℚ × ℚ) (r wl0 : ℚ) (rest : List ℚ)
    (sci err : List Slice) :
    ∃ fs es, extract phot r (wl0 :: rest) sci err = some (fs, es) ∧
      fs.length = min (wl0 :: rest).length (min sci.length err.length) ∧
      es.length = min (wl0 :: rest).length (min sci.length err.length) := by
  refine ⟨_, _, rfl, ?_, ?_⟩ <;> simp [List.length_zip]

/-- C9: the output spectrum's flux carries exactly the input cube's flux
unit, and its uncertainty is a standard-deviation uncertainty built from the
per-slice photometric errors. -/
theorem extracted_spec_unit_and_uncertainty_kind
    (phot : Slice → Slice → ℚ → ℚ × ℚ) (r : ℚ) (f : IFUFile) (s : Spectrum1D)
    (h : extracted_spec phot r f = some s) :
    s.fluxUnit = f.fluxUnit ∧
      ∃ es, s.uncertainty = some (StdDevUncertainty es) ∧
        (StdDevUncertainty es).kind = UncertaintyKind.stdDev := by
  rcases Option.map_eq_some'.mp h with ⟨p, hp, hps⟩
  rw [← hps]
  exact ⟨rfl, p.2, rfl, rfl⟩

/-- Witness for C9 at a concrete input. -/
theorem extracted_spec_unit_and_uncertainty_kind_witness :
    specSample.fluxUnit = fileSample.fluxUnit ∧
      ∃ es, specSample.uncertainty = some (StdDevUncertainty es) ∧
        (StdDevUncertainty es).kind = UncertaintyKind.stdDev :=
  extracted_spec_unit_and_uncertainty_kind photProbe 2 fileSample specSample rfl

/-- C4: the sky region is built from the WCS celestial `pixel_to_world` of
the pixel center, and its radius in arcsec is the pixel radius times the
geometric mean of the absolute celestial scales in degrees times 3600. -/
theorem toSkyRegion_center_and_radius {Sky : Type} (w : CelestialWCS Sky)
    (p : CirclePixelRegion) :
    (toSkyRegion w p).center = w.pixel_to_world (p.centerX, p.centerY) ∧
    (toSkyRegion w p).radiusArcsec = skyRadiusSpec w p.radius := by
  refine ⟨rfl, ?_⟩
  simp only [toSkyRegion, skyRadiusSpec, pixel_scale, abs_mul]

/-- C5: under the idealization that `world_to_pixel` inverts
`pixel_to_world` at the selected center and that the library divides the
sky radius by the same arcsec pixel scale, converting the selected pixel
region to a sky region and back with `to_pixel` on the same celestial WCS
recovers the original pixel region exactly. -/
theorem skyRegion_to_pixel_roundtrip {Sky : Type} (w : CelestialWCS Sky)
    (p : CirclePixelRegion)
    (hinv : w.world_to_pixel (w.pixel_to_world (p.centerX, p.centerY)) =
      (p.centerX, p.centerY))
    (hscale : pixel_scale w ≠ 0) :
    (toSkyRegion w p).to_pixel w = p := by
  have h3600 : pixel_scale w * 3600 ≠ 0 := mul_ne_zero hscale (by norm_num)
  cases p with
  | mk x y r =>
    simp only [toSkyRegion, CircleSkyRegion.to_pixel, hinv]
    congr 1
    rw [mul_assoc, mul_div_assoc, div_self h3600, mul_one]

/-- A concrete identity-like celestial WCS used to instantiate theorems. -/
noncomputable def wcsId : CelestialWCS (ℝ × ℝ) :=
  { cdelt1 := 1, cdelt2 := 1, pixel_to_world := id, world_to_pixel := id }

/-- A concrete selected pixel region used to instantiate theorems. -/
noncomputable def pregSample : CirclePixelRegion :=
  { centerX := 0, centerY := 0, radius := 2 }

/-- Witness for C5 at a concrete input. -/
theorem skyRegion_to_pixel_roundtrip_witness :
    (wcsId.world_to_pixel (wcsId.pixel_to_world (pregSample.centerX, pregSample.centerY)) =
        (pregSample.centerX, pregSample.centerY) ∧ pixel_scale wcsId ≠ 0) ∧
    (toSkyRegion wcsId pregSample).to_pixel wcsId = pregSample :=
  have h1 : wcsId.world_to_pixel (wcsId.pixel_to_world
      (pregSample.centerX, pregSample.centerY)) =
      (pregSample.centerX, pregSample.centerY) := rfl
  have h2 : pixel_scale wcsId ≠ 0 := by
    simp [pixel_scale, wcsId]
  ⟨⟨h1, h2⟩, skyRegion_to_pixel_roundtrip wcsId pregSample h1 h2⟩

/-- C10: the pixel-scale computation is total and sign-safe: the argument of
the square root is nonnegative for every WCS, the pixel scale is
nonnegative, and the sky radius is nonnegative whenever the selected pixel
radius is. -/
theorem pixel_scale_total_nonneg {Sky : Type} (w : CelestialWCS Sky)
    (p : CirclePixelRegion) (h : 0 ≤ p.radius) :
    0 ≤ |w.cdelt1 * w.cdelt2| ∧ 0 ≤ pixel_scale w ∧
      0 ≤ (toSkyRegion w p).radiusArcsec :=
  ⟨abs_nonneg _, Real.sqrt_nonneg _,
    mul_nonneg (mul_nonneg h (Real.sqrt_nonneg _)) (by norm_num)⟩

/-- Witness for C10 at a concrete input. -/
theorem pixel_scale_total_nonneg_witness :
    0 ≤ pregSample.radius ∧
      (0 ≤ |wcsId.cdelt1 * wcsId.cdelt2| ∧ 0 ≤ pixel_scale wcsId ∧
        0 ≤ (toSkyRegion wcsId pregSample).radiusArcsec) :=
  ⟨by norm_num [pregSample],
    pixel_scale_total_nonneg wcsId pregSample (by norm_num [pregSample])⟩

end FracPixExtract
